import Mathlib

set_option maxRecDepth 100000

/-!
Verification of the generation pipeline in `app/llm_generator.py`.

The pipeline is embedded shallowly: Python strings become `String`, Python
exceptions become `Except PyErr`, the remote HTTP service becomes an explicit
function `svc : String → Nat → Except PyErr Json` mapping (prompt, attempt
index) to the parsed JSON body or a raised transport error, and file-system
side effects of the attachment materializer are threaded as an explicit write
log.  Python string operations (`strip`, `split`, `splitlines`, `in`) are
re-implemented below with Python's semantics (greedy left-to-right
non-overlapping splitting, `maxsplit`, universal newlines, truthiness).
-/

/-- Whitespace as recognised by Python `str.strip()` / `str.isspace()`
(ASCII whitespace plus the common unicode members of the set; exotic
unicode space separators are not needed by any string in this program). -/
def py_isspace (c : Char) : Bool :=
  c = ' ' || c = '\t' || c = '\n' || c = '\r' || c = '\x0b' || c = '\x0c' ||
  c = '\x1c' || c = '\x1d' || c = '\x1e' || c = '\x1f' || c = '\x85' || c = '\xa0' ||
  c = ' ' || c = ' '

/-- Drop trailing whitespace, the second half of Python `str.strip()`. -/
def dropTrailingWS (l : List Char) : List Char :=
  ((l.reverse).dropWhile py_isspace).reverse

/-- Python `str.strip()` on a character list. -/
def pyStripList (l : List Char) : List Char :=
  dropTrailingWS (l.dropWhile py_isspace)

/-- Python `str.strip()`. -/
def pyStrip (s : String) : String := ⟨pyStripList s.data⟩

/-- Find the first occurrence of `sep` in a list, returning the text before it
and the text after it (Python `str.split(sep, 1)` and the `in` operator are
both built on this). -/
def splitFirst (sep : List Char) : List Char → Option (List Char × List Char)
  | [] => if sep.isPrefixOf ([] : List Char) then some ([], []) else none
  | c :: cs =>
    if sep.isPrefixOf (c :: cs) then some ([], (c :: cs).drop sep.length)
    else (splitFirst sep cs).map (fun p => (c :: p.1, p.2))

/-- Python `needle in hay` for strings. -/
def pyIn (needle hay : String) : Bool := (splitFirst needle.data hay.data).isSome

/-- Greedy left-to-right splitting on every occurrence of `sep`
(Python `str.split(sep)`); the fuel argument only serves termination and is
always supplied large enough. -/
def pySplitAux (sep : List Char) : Nat → List Char → List (List Char)
  | 0, l => [l]
  | fuel+1, l =>
    match splitFirst sep l with
    | none => [l]
    | some (a, b) => a :: pySplitAux sep fuel b

/-- Python `s.split(sep)` for a non-empty separator. -/
def pySplit (sep s : String) : List String :=
  (pySplitAux sep.data (s.data.length + 1) s.data).map (fun l => ⟨l⟩)

/-- Python `s.split(sep, 1)`.  The source only evaluates it under an
`in` guard, so the pair is always a genuine split; the `none` branch
mirrors Python returning `[s]` (unpacking of which would fail). -/
def pySplit1 (sep s : String) : String × String :=
  match splitFirst sep.data s.data with
  | some (a, b) => (⟨a⟩, ⟨b⟩)
  | none => (s, "")

/-- Line boundaries recognised by Python `str.splitlines()`. -/
def py_islinebreak (c : Char) : Bool :=
  c = '\n' || c = '\r' || c = '\x0b' || c = '\x0c' || c = '\x1c' ||
  c = '\x1d' || c = '\x1e' || c = '\x85' || c = ' ' || c = ' '

/-- Worker for Python `str.splitlines()`: `acc` holds the reversed current
line; a carriage-return/newline pair counts as a single boundary and a
terminal boundary does not open a final empty line.  The fuel argument only
serves structural termination and is always supplied at least as large as
the list. -/
def py_splitlinesAux : Nat → List Char → List Char → List (List Char)
  | _, acc, [] => [acc.reverse]
  | 0, acc, l => [acc.reverse ++ l]
  | fuel+1, acc, c :: rest =>
    if c = '\r' then
      match rest with
      | [] => [acc.reverse]
      | c2 :: rest2 =>
        if c2 = '\n' then
          acc.reverse :: (if rest2.isEmpty then [] else py_splitlinesAux fuel [] rest2)
        else acc.reverse :: py_splitlinesAux fuel [] rest
    else if py_islinebreak c then
      acc.reverse :: (if rest.isEmpty then [] else py_splitlinesAux fuel [] rest)
    else py_splitlinesAux fuel (c :: acc) rest

/-- Python `s.splitlines()`; the empty string yields the empty list. -/
def py_splitlines (s : String) : List String :=
  if s.data.isEmpty then [] else (py_splitlinesAux s.data.length [] s.data).map (fun l => ⟨l⟩)

/-- Everything before the first line boundary; used only to state properties
of `s.splitlines()[0]`. -/
def py_first_line (s : String) : String :=
  ⟨s.data.takeWhile (fun c => !py_islinebreak c)⟩

/-- An apostrophe character, used by the Python `repr` of a string. -/
def py_quote : String := ⟨[Char.ofNat 39]⟩

/-- Python `repr` of a string literal as it appears in an f-string rendering
of a list (quote escaping is not modelled; no string in the claims needs it). -/
def py_repr_str (s : String) : String := py_quote ++ s ++ py_quote

/-- Python `repr` of a list of strings, as rendered by `f"{checks or []}"`. -/
def py_repr_list (xs : List String) : String :=
  ("[") ++ String.intercalate (", ") (xs.map py_repr_str) ++ ("]")

/-! ## JSON values and the error model -/

/-- JSON values as produced by `r.json()`. -/
inductive Json where
  | null
  | bool (b : Bool)
  | num (n : Int)
  | str (s : String)
  | arr (items : List Json)
  | obj (fields : List (String × Json))

/-- Python exceptions the embedded code can raise.  The first three are the
transport failures raised inside `requests.post` / `raise_for_status`
(connection error, non-success HTTP status, timeout); `jsonError` models a
body that is not JSON; the rest are the usual dynamic-typing errors. -/
inductive PyErr where
  | connectionError
  | httpStatusError
  | timeoutError
  | jsonError
  | typeError
  | attributeError
  | indexError
deriving DecidableEq

instance {ε α : Type} [DecidableEq ε] [DecidableEq α] : DecidableEq (Except ε α) := fun a b =>
  match a, b with
  | .error e1, .error e2 =>
    if h : e1 = e2 then isTrue (h ▸ rfl) else isFalse (fun hc => h (Except.error.inj hc))
  | .error _, .ok _ => isFalse (fun hc => Except.noConfusion hc)
  | .ok _, .error _ => isFalse (fun hc => Except.noConfusion hc)
  | .ok v1, .ok v2 =>
    if h : v1 = v2 then isTrue (h ▸ rfl) else isFalse (fun hc => h (Except.ok.inj hc))

/-- Python truthiness of a JSON value. -/
def json_truthy : Json → Bool
  | .null => false
  | .bool b => b
  | .num n => n != 0
  | .str s => !s.isEmpty
  | .arr items => !items.isEmpty
  | .obj fields => !fields.isEmpty

/-- One entry of an output item's `content` list:
`if isinstance(c, dict) and "text" in c: text += c["text"]
 elif isinstance(c, str): text += c`. -/
def content_piece (acc : Except PyErr String) (c : Json) : Except PyErr String := do
  let t ← acc
  match c with
  | .obj gs =>
    match gs.lookup ("text") with
    | some (.str s) => pure (t ++ s)
    | some _ => Except.error .typeError
    | none => pure t
  | .str s => pure (t ++ s)
  | _ => pure t

/-- One item of the `output` array: `for c in item.get("content", []) ...`.
Iterating a string yields its characters (each appended as a string) and
iterating a dict yields its keys, exactly as in Python. -/
def output_item_text (acc : Except PyErr String) (item : Json) : Except PyErr String := do
  let t ← acc
  match item with
  | .obj fs =>
    match fs.lookup ("content") with
    | none => pure t
    | some (.arr cs) => cs.foldl content_piece (pure t)
    | some (.str s) => pure (t ++ s)
    | some (.obj gs) => pure (t ++ String.join (gs.map Prod.fst))
    | some _ => Except.error .typeError
  | _ => Except.error .attributeError

/-- One element of the `choices` array:
`msg = ch.get("message", {}); content = msg.get("content", "");
 if content: text += content`. -/
def choice_text (acc : Except PyErr String) (ch : Json) : Except PyErr String := do
  let t ← acc
  match ch with
  | .obj fs =>
    match (fs.lookup ("message")).getD (Json.obj []) with
    | .obj mfs =>
      let content := (mfs.lookup ("content")).getD (Json.str (""))
      if json_truthy content then
        match content with
        | .str s => pure (t ++ s)
        | _ => Except.error .typeError
      else pure t
    | _ => Except.error .attributeError
  | _ => Except.error .attributeError

/-- The `elif "output" in data ... elif "choices" in data ...` chain of
`ai_pipe_generate`, reached when `data.get("output_text")` is falsy. -/
def extract_chain (fs : List (String × Json)) : Except PyErr String :=
  if (fs.lookup ("output")).isSome then
    match fs.lookup ("output") with
    | some (.arr items) => items.foldl output_item_text (Except.ok (""))
    | some (.str s) => if s.isEmpty then Except.ok ("") else Except.error .attributeError
    | some (.obj gs) => if gs.isEmpty then Except.ok ("") else Except.error .attributeError
    | some _ => Except.error .typeError
    | none => Except.ok ("")
  else if (fs.lookup ("choices")).isSome then
    match fs.lookup ("choices") with
    | some (.arr chs) => chs.foldl choice_text (Except.ok (""))
    | some (.str s) => if s.isEmpty then Except.ok ("") else Except.error .attributeError
    | some (.obj gs) => if gs.isEmpty then Except.ok ("") else Except.error .attributeError
    | some _ => Except.error .typeError
    | none => Except.ok ("")
  else Except.ok ("")

/-- Text extraction of `ai_pipe_generate` (lines 38-64): first a truthy
top-level `output_text`, else the `output` items, else the `choices`
messages, else the empty string. -/
def extract_text (data : Json) : Except PyErr String :=
  match data with
  | .obj fs =>
    match fs.lookup ("output_text") with
    | some v =>
      if json_truthy v then
        match v with
        | .str s => Except.ok s
        | _ => Except.error .typeError
      else extract_chain fs
    | none => extract_chain fs
  | _ => Except.error .attributeError

/-- The whole of `ai_pipe_generate`: the remote call (`requests.post`,
`raise_for_status`, `r.json()`) is the externally supplied `svc`, which maps
the prompt and the attempt index to a JSON body or a raised error; the
extraction of the text follows.  No error is caught here. -/
def ai_pipe_generate (svc : String → Nat → Except PyErr Json) (prompt : String)
    (attempt : Nat) : Except PyErr String := do
  let data ← svc prompt attempt
  extract_text data

/-! ## Attachment materializer -/

/-- An input attachment: the dict `{name: ..., url: ...}`; a missing or falsy
name falls back to the literal `attachment`, a missing url to the empty
string. -/
structure Attachment where
  name : Option String
  url : String

/-- A materialized attachment record. -/
structure SavedAttachment where
  name : String
  path : String
  mime : String
  size : Nat
deriving DecidableEq

/-- Base64 value of an alphabet character. -/
def b64val (c : Char) : Option Nat :=
  if ('A' ≤ c ∧ c ≤ 'Z') then some (c.toNat - 65)
  else if ('a' ≤ c ∧ c ≤ 'z') then some (c.toNat - 97 + 26)
  else if ('0' ≤ c ∧ c ≤ '9') then some (c.toNat - 48 + 52)
  else if c = '+' then some 62
  else if c = '/' then some 63
  else none

/-- Assemble 6-bit groups into bytes (a trailing group of two or three
symbols yields one or two bytes). -/
def b64groups : List Nat → Option (List Nat)
  | [] => some []
  | [a, b] => some [a * 4 + b / 16]
  | [a, b, c] => some [a * 4 + b / 16, (b % 16) * 16 + c / 4]
  | a :: b :: c :: d :: rest =>
    (b64groups rest).map
      (fun r => (a * 4 + b / 16) :: ((b % 16) * 16 + c / 4) :: ((c % 4) * 64 + d) :: r)
  | _ => none

/-- Model of `base64.b64decode` (default validation: non-alphabet characters
are discarded, the padded length must be a multiple of four). -/
def b64decode (s : String) : Option (List Nat) :=
  let cs := s.data.filter (fun c => (b64val c).isSome || c = '=')
  let body := cs.filter (fun c => c ≠ '=')
  if cs.length % 4 ≠ 0 then none else b64groups (body.filterMap b64val)

/-- Bytes written to a file and read back as text, one character per byte
(the source writes the decoded bytes and reads them back with
`errors="ignore"`). -/
def bytes_to_text (bs : List Nat) : String := ⟨bs.map (fun n => Char.ofNat n)⟩

/-- The shared temporary directory `TMP_DIR`. -/
def TMP_DIR : String := "/tmp/llm_attachments/"

/-- The display name of an attachment: `att.get("name") or "attachment"`. -/
def attachment_display_name (a : Attachment) : String :=
  match a.name with
  | some s => if s = "" then ("attachment") else s
  | none => ("attachment")

/-- Materialize a single attachment (the body of the `for` loop of
`decode_attachments`): skip non-data URLs; a missing comma or an invalid
base64 payload raises inside the `try` and is logged and skipped (`none`);
otherwise return the record together with the file write it performs. -/
def decode_one (att : Attachment) : Option (SavedAttachment × (String × String)) :=
  let name := attachment_display_name att
  if !att.url.startsWith ("data:") then none
  else
    match splitFirst (",").data att.url.data with
    | none => none
    | some (hdr, b64data) =>
      let header : String := ⟨hdr⟩
      let mime := ((pySplit1 (";") header).1).replace ("data:") ("")
      match b64decode ⟨b64data⟩ with
      | none => none
      | some bytes =>
        let path := TMP_DIR ++ name
        some ({ name := name, path := path, mime := mime, size := bytes.length },
              (path, bytes_to_text bytes))

/-- `decode_attachments`: the saved records in order, together with the log
of file writes (later writes to the same path overwrite earlier ones). -/
def decode_attachments (attachments : List Attachment) :
    List SavedAttachment × List (String × String) :=
  attachments.foldl
    (fun acc att =>
      match decode_one att with
      | none => acc
      | some (sa, w) => (acc.1 ++ [sa], acc.2 ++ [w]))
    ([], [])

/-- Read a file back from the write log (last write wins). -/
def file_read (writes : List (String × String)) (path : String) : String :=
  ((writes.reverse).lookup path).getD ("")

/-- Whether a record is previewed as text:
`mime.startswith("text") or nm.endswith((".md", ".txt", ".json", ".csv"))`. -/
def text_like (nm mime : String) : Bool :=
  mime.startsWith ("text") || nm.endsWith (".md") || nm.endsWith (".txt") ||
  nm.endsWith (".json") || nm.endsWith (".csv")

/-- Body of the `for` loop of `summarize_attachment_meta`.  The pure
file-store never fails to read, so the `except` branch of the source is
unreachable here. -/
def summarize_one (writes : List (String × String)) (s : SavedAttachment) : String :=
  if text_like s.name s.mime then
    let data := (file_read writes s.path).take 500
    let preview := (data.replace ("\n") ("\\n")).take 500
    ("- ") ++ s.name ++ (" (") ++ s.mime ++ ("): preview: ") ++ preview
  else
    ("- ") ++ s.name ++ (" (") ++ s.mime ++ ("): ") ++ toString s.size ++ (" bytes")

/-- `summarize_attachment_meta`. -/
def summarize_attachment_meta (writes : List (String × String))
    (saved : List SavedAttachment) : String :=
  String.intercalate ("\n") (saved.map (summarize_one writes))

/-! ## The generation pipeline -/

/-- The marker separating the code section from the document section. -/
def MARKER : String := "---README.md---"

/-- The Markdown code-fence marker. -/
def FENCE : String := "```"

/-- The revision directive inserted into round-2 prompts. -/
def REVISE_DIRECTIVE : String := "Revise and enhance"

/-- `_strip_code_block` (lines 107-112): if the text contains a fence
marker, return the part between the first and second occurrence, trimmed;
otherwise the trimmed text. -/
def strip_code_block (text : String) : String :=
  if pyIn FENCE text then
    match pySplit FENCE text with
    | _ :: p1 :: _ => pyStrip p1
    | _ => pyStrip text
  else pyStrip text

/-- `generate_readme_fallback` (lines 114-133).  A `checks` of `None` and of
`[]` render identically, so `checks` is a plain list here. -/
def generate_readme_fallback (brief : String) (checks : List String)
    (attachments_meta : String) (round_num : Int) : String :=
  let checks_text := String.intercalate ("\n") checks
  let att_text := attachments_meta
  ("# Auto-generated README (Round ") ++ toString round_num ++
  (")\n\n**Project brief:** ") ++ brief ++
  ("\n\n**Attachments:**\n") ++ att_text ++
  ("\n\n**Checks to meet:**\n") ++ checks_text ++
  ("\n\n## Setup\n1. Open `index.html` in a browser.\n2. No build steps required.\n\n## Notes\nThis README was generated as a fallback (AIpipe did not return an explicit README).\n")

/-- The quality gate of line 183:
`len(readme_candidate.strip()) > 50 and ("# " in readme_candidate.splitlines()[0] or "Overview" in readme_candidate)`.
The `and` short-circuits, so the element access is reached only when the
length test passed; an empty line list there would raise `IndexError`. -/
def quality_gate (readme_candidate : String) : Except PyErr Bool :=
  if (pyStrip readme_candidate).length > 50 then
    match py_splitlines readme_candidate with
    | [] => Except.error .indexError
    | l0 :: _ => Except.ok (pyIn ("# ") l0 || pyIn ("Overview") readme_candidate)
  else Except.ok false

/-- The quality gate as the specification words it, for comparison with the
code: the trimmed text exceeds 50 characters and its first line contains a
heading marker or the text contains the word Overview. -/
def gate_spec (c : String) : Bool :=
  decide ((pyStrip c).length > 50) &&
  (pyIn ("# ") (py_first_line c) || pyIn ("Overview") c)

/-- The round-2 context note (lines 140-142). -/
def context_note (round_num : Int) (prev_readme : Option String) : String :=
  match prev_readme with
  | some prev =>
    if round_num = 2 ∧ prev ≠ "" then
      ("\n### Previous README.md:\n") ++ prev ++
      ("\n\nRevise and enhance this project according to the new brief below.\n")
    else ("")
  | none => ("")

/-- The prompt assembled at lines 144-172. -/
def build_prompt (brief attachments_meta : String) (checks : List String)
    (round_num : Int) (prev_readme : Option String) : String :=
  ("\nYou are a professional web developer assistant.\n\n### Round\n") ++
  toString round_num ++
  ("\n\n### Task\n") ++ brief ++ ("\n\n") ++
  context_note round_num prev_readme ++
  ("\n\n### Attachments (if any)\n") ++ attachments_meta ++
  ("\n\n### Evaluation checks\n") ++ py_repr_list checks ++
  ("\n\n### Output format rules:\n1. Produce a complete web app (HTML/JS/CSS inline if needed) satisfying the brief.\n2. Output must contain **two parts only**:\n   - index.html (main code)\n   - README.md (starts after a line containing exactly: ---README.md---)\n3. README.md must include:\n   - Overview\n   - Setup\n   - Usage\n   - If Round 2, describe improvements made from previous version.\n4. Do not include any commentary outside code or README.\n")

/-- `max_attempts = 2`. -/
def max_attempts : Nat := 2

/-- The retry loop of lines 176-195, one recursive step per remaining
attempt index; `time.sleep(1)` and the log lines have no observable effect
and are omitted.  A raised error from `ai_pipe_generate` is not caught and
aborts the whole loop. -/
def retry_go (svc : String → Nat → Except PyErr Json) (prompt : String) :
    List Nat → Except PyErr (Option String)
  | [] => Except.ok none
  | attempt :: rest => do
    let text ← ai_pipe_generate svc prompt attempt
    if text ≠ "" ∧ pyIn MARKER text then
      let readme_part := (pySplit1 MARKER text).2
      let readme_candidate := strip_code_block readme_part
      let accepted ← quality_gate readme_candidate
      if accepted then pure (some text) else retry_go svc prompt rest
    else retry_go svc prompt rest

/-- The number of remote invocations the retry loop performs: the attempt
that raises, or is accepted, is the last one counted. -/
def retry_calls (svc : String → Nat → Except PyErr Json) (prompt : String) :
    List Nat → Nat
  | [] => 0
  | attempt :: rest =>
    match ai_pipe_generate svc prompt attempt with
    | .error _ => 1
    | .ok text =>
      if text ≠ "" ∧ pyIn MARKER text then
        match quality_gate (strip_code_block (pySplit1 MARKER text).2) with
        | .error _ => 1
        | .ok true => 1
        | .ok false => 1 + retry_calls svc prompt rest
      else 1 + retry_calls svc prompt rest

/-- The fallback response synthesized at lines 199-210. -/
def fallback_response_text (brief : String) (checks : List String)
    (attachments_meta : String) (round_num : Int) : String :=
  ("\n<html>\n  <head><title>Fallback App</title></head>\n  <body>\n    <h1>Hello (fallback)</h1>\n    <p>This app was generated as a fallback because AIpipe failed. Brief: ") ++
  brief ++
  ("</p>\n  </body>\n</html>\n\n---README.md---\n") ++
  generate_readme_fallback brief checks attachments_meta round_num ++ ("\n")

/-- The final parse of lines 213-221, producing the code part and the
document part. -/
def final_parse (brief : String) (checks : List String) (attachments_meta : String)
    (round_num : Int) (response_text : String) : String × String :=
  if pyIn MARKER response_text then
    let parts := pySplit1 MARKER response_text
    let code_part := strip_code_block parts.1
    let readme_part := strip_code_block parts.2
    if (pyStrip readme_part).length < 20 then
      (code_part, generate_readme_fallback brief checks attachments_meta round_num)
    else (code_part, readme_part)
  else (strip_code_block response_text,
        generate_readme_fallback brief checks attachments_meta round_num)

/-- The two generated files, the values of the dict keys `index.html` and
`README.md`. -/
structure GeneratedFiles where
  index_html : String
  readme_md : String
deriving DecidableEq

/-- The value returned by `generate_app_code`. -/
structure GenerationResult where
  files : GeneratedFiles
  attachments : List SavedAttachment
deriving DecidableEq

/-- The tail of `generate_app_code` after the retry loop (lines 197-224):
choose the fallback response when the loop produced nothing truthy, run the
final parse, and build the result record.  The loop can only store a
non-empty accepted text, so `if not response_text` is modelled truthily on
both `None` and the empty string. -/
def finish_generation (brief : String) (checks : List String) (attachments_meta : String)
    (round_num : Int) (saved : List SavedAttachment) (loop_result : Option String) :
    GenerationResult :=
  let response_text :=
    match loop_result with
    | some t => if t = "" then fallback_response_text brief checks attachments_meta round_num else t
    | none => fallback_response_text brief checks attachments_meta round_num
  let parsed := final_parse brief checks attachments_meta round_num response_text
  { files := { index_html := parsed.1, readme_md := parsed.2 }, attachments := saved }

/-- `generate_app_code` (lines 136-224). -/
def generate_app_code (svc : String → Nat → Except PyErr Json) (brief : String)
    (attachments : List Attachment) (checks : List String) (round_num : Int)
    (prev_readme : Option String) : Except PyErr GenerationResult := do
  let dec := decode_attachments attachments
  let saved := dec.1
  let attachments_meta := summarize_attachment_meta dec.2 saved
  let base_prompt := build_prompt brief attachments_meta checks round_num prev_readme
  let loop_result ← retry_go svc base_prompt (List.range' 1 max_attempts)
  pure (finish_generation brief checks attachments_meta round_num saved loop_result)

/-- The prompt `generate_app_code` passes to the remote service on every
attempt of a given invocation. -/
def assembled_prompt (brief : String) (attachments : List Attachment)
    (checks : List String) (round_num : Int) (prev_readme : Option String) : String :=
  let dec := decode_attachments attachments
  build_prompt brief (summarize_attachment_meta dec.2 dec.1) checks round_num prev_readme

/-- The number of remote invocations one call of `generate_app_code`
performs. -/
def generate_remote_calls (svc : String → Nat → Except PyErr Json) (brief : String)
    (attachments : List Attachment) (checks : List String) (round_num : Int)
    (prev_readme : Option String) : Nat :=
  retry_calls svc (assembled_prompt brief attachments checks round_num prev_readme)
    (List.range' 1 max_attempts)

/-! ## Concrete remote services and auxiliary values used by the claims -/

/-- The backtick character. -/
def BT : Char := Char.ofNat 96

/-- A remote service whose transport always fails with a connection error. -/
def conn_fail_remote : String → Nat → Except PyErr Json :=
  fun _ _ => Except.error PyErr.connectionError

/-- A remote service whose transport always times out. -/
def timeout_remote : String → Nat → Except PyErr Json :=
  fun _ _ => Except.error PyErr.timeoutError

/-- A remote service that answers with an accepted response whose text
starts directly with the marker, leaving an empty code section. -/
def marker_first_remote : String → Nat → Except PyErr Json := fun _ _ =>
  Except.ok (Json.obj [(("output_text"),
    Json.str ("---README.md---\n# Overview aaaaaaaaaaaaaaaaaaaaaaaaaaaaaaaaaaaaaaaaaaaaaaaaa"))])

/-- A remote service whose first answer passes the format check and the
quality gate. -/
def good_remote : String → Nat → Except PyErr Json := fun _ _ =>
  Except.ok (Json.obj [(("output_text"),
    Json.str ("<html>app</html>\n---README.md---\n# Overview aaaaaaaaaaaaaaaaaaaaaaaaaaaaaaaaaaaaaaaaaaaaa"))])

/-- The part of the fallback response that precedes the marker. -/
def fallback_code_part (brief : String) : String :=
  ("\n<html>\n  <head><title>Fallback App</title></head>\n  <body>\n    <h1>Hello (fallback)</h1>\n    <p>This app was generated as a fallback because AIpipe failed. Brief: ") ++
  brief ++ ("</p>\n  </body>\n</html>\n\n")

/-- A remote service that always answers with marker-free text. -/
def plain_remote : String → Nat → Except PyErr Json := fun _ _ =>
  Except.ok (Json.obj [(("output_text"), Json.str ("hello"))])

/-! ## Generic lemmas about the Python string primitives -/

theorem isPrefixOf_eq_true_iff (l₁ l₂ : List Char) : l₁.isPrefixOf l₂ = true ↔ l₁ <+: l₂ :=
  List.isPrefixOf_iff_prefix

theorem splitFirst_isSome_iff (sep l : List Char) :
    (splitFirst sep l).isSome = true ↔ sep <:+: l := by
  induction l with
  | nil =>
    by_cases h : sep.isPrefixOf ([] : List Char)
    · simp [splitFirst, h, ((isPrefixOf_eq_true_iff sep []).mp h).isInfix]
    · simp only [splitFirst, if_neg h]
      constructor
      · intro hfalse; simp at hfalse
      · intro hinf
        have hsep : sep = [] := List.infix_nil.mp hinf
        subst hsep
        exact absurd ((isPrefixOf_eq_true_iff [] []).mpr List.nil_prefix) h
  | cons c cs ih =>
    by_cases h : sep.isPrefixOf (c :: cs)
    · simp [splitFirst, h, ((isPrefixOf_eq_true_iff _ _).mp h).isInfix]
    · have hnp : ¬ sep <+: (c :: cs) := fun hp => h ((isPrefixOf_eq_true_iff _ _).mpr hp)
      simp only [splitFirst, if_neg h]
      have hmap : (Option.map (fun p => (c :: p.1, p.2)) (splitFirst sep cs)).isSome
          = (splitFirst sep cs).isSome := by
        cases splitFirst sep cs <;> rfl
      rw [hmap, ih, List.infix_cons_iff]
      exact ⟨Or.inr, fun hor => hor.resolve_left hnp⟩

theorem pyIn_iff (needle hay : String) : pyIn needle hay = true ↔ needle.data <:+: hay.data := by
  rw [pyIn, splitFirst_isSome_iff]

theorem pyIn_eq_false_iff (needle hay : String) :
    pyIn needle hay = false ↔ ¬ needle.data <:+: hay.data := by
  rw [← pyIn_iff]
  cases pyIn needle hay <;> simp

theorem pyIn_of_infix (needle hay : String) (h : needle.data <:+: hay.data) :
    pyIn needle hay = true := (pyIn_iff needle hay).mpr h

/-- A prefix occurrence that may not cross the distinguished character stays
on its left. -/
theorem prefix_stop_at_char (c : Char) (y : List Char) :
    ∀ (n z : List Char), c ∉ n → n <+: z ++ c :: y → n <+: z := by
  intro n
  induction n with
  | nil => intro z _ _; exact List.nil_prefix
  | cons a t ih =>
    intro z hc h
    cases z with
    | nil =>
      rw [List.nil_append, List.cons_prefix_cons] at h
      have h1 := h.1
      subst h1
      exact absurd (List.mem_cons_self a t) hc
    | cons b z2 =>
      rw [List.cons_append, List.cons_prefix_cons] at h
      obtain ⟨rfl, h2⟩ := h
      exact List.cons_prefix_cons.mpr
        ⟨rfl, ih z2 (fun hm => hc (List.mem_cons_of_mem _ hm)) h2⟩

/-- An infix occurrence of a needle that does not contain the distinguished
character lies entirely on one side of it. -/
theorem infix_split_at_char (c : Char) (y n : List Char) (hc : c ∉ n) :
    ∀ x : List Char, n <:+: x ++ c :: y → n <:+: x ∨ n <:+: y := by
  intro x
  induction x with
  | nil =>
    intro h
    rw [List.nil_append, List.infix_cons_iff] at h
    rcases h with hp | hi
    · cases n with
      | nil => exact Or.inl List.nil_infix
      | cons a t =>
        rw [List.cons_prefix_cons] at hp
        have h1 := hp.1
        subst h1
        exact absurd (List.mem_cons_self a t) hc
    · exact Or.inr hi
  | cons b x2 ih =>
    intro h
    rw [List.cons_append, List.infix_cons_iff] at h
    rcases h with hp | hi
    · refine Or.inl (List.IsPrefix.isInfix ?_)
      have hp2 : n <+: (b :: x2) ++ c :: y := by rwa [List.cons_append]
      exact prefix_stop_at_char c y n (b :: x2) hc hp2
    · rcases ih hi with h1 | h2
      · exact Or.inl (List.infix_cons_iff.mpr (Or.inr h1))
      · exact Or.inr h2

/-- If the separator has no occurrence before the distinguished one (no
occurrence fits inside `x` padded with the separator minus its last
character), the first split lands exactly on it. -/
theorem splitFirst_boundary (sep y : List Char) :
    ∀ x : List Char, ¬ sep <:+: (x ++ sep.dropLast) →
      splitFirst sep (x ++ sep ++ y) = some (x, y) := by
  intro x
  induction x with
  | nil =>
    intro _
    rw [List.nil_append]
    cases hsy : sep ++ y with
    | nil =>
      rw [List.append_eq_nil] at hsy
      obtain ⟨rfl, rfl⟩ := hsy
      simp [splitFirst, List.isPrefixOf]
    | cons c cs =>
      have hpre : sep.isPrefixOf (c :: cs) = true := by
        rw [← hsy]
        exact (isPrefixOf_eq_true_iff _ _).mpr (List.prefix_append sep y)
      have hval : splitFirst sep (c :: cs) = some ([], (c :: cs).drop sep.length) := by
        simp [splitFirst, hpre]
      rw [hval, ← hsy, List.drop_left]
  | cons a x2 ih =>
    intro hocc
    cases sep with
    | nil => exact absurd List.nil_infix hocc
    | cons s1 srest =>
      set sep := s1 :: srest with hsep
      have hne : sep ≠ [] := by simp [hsep]
      have hnp : ¬ sep.isPrefixOf (a :: (x2 ++ sep ++ y)) = true := by
        intro hp
        apply hocc
        have hp2 : sep <+: (a :: x2) ++ sep ++ y := by
          rw [isPrefixOf_eq_true_iff] at hp
          simpa [List.cons_append, List.append_assoc] using hp
        have hzp : (a :: x2) ++ sep.dropLast <+: (a :: x2) ++ sep ++ y := by
          refine ⟨[sep.getLast hne] ++ y, ?_⟩
          conv_rhs => rw [show sep = sep.dropLast ++ [sep.getLast hne] from
            (List.dropLast_append_getLast hne).symm]
          simp [List.append_assoc]
        have hlen : sep.length ≤ ((a :: x2) ++ sep.dropLast).length := by
          simp only [List.length_append, List.length_cons, List.length_dropLast, hsep]
          omega
        exact (List.prefix_of_prefix_length_le hp2 hzp hlen).isInfix
      have hocc2 : ¬ sep <:+: (x2 ++ sep.dropLast) := by
        intro hi
        exact hocc (by
          rw [List.cons_append]
          exact List.infix_cons_iff.mpr (Or.inr hi))
      have harr : (a :: x2) ++ sep ++ y = a :: (x2 ++ sep ++ y) := by
        simp [List.cons_append]
      rw [harr]
      simp only [splitFirst, if_neg hnp]
      rw [ih hocc2]
      rfl

theorem fence_data : FENCE.data = [BT, BT, BT] := by decide

/-- If the enclosed text contains no fence and does not end in a backtick,
the first fence occurrence in `text ++ fence` is the appended one. -/
theorem splitFirst_fence_close :
    ∀ c : List Char, ¬ [BT, BT, BT] <:+: c → c.getLast? ≠ some BT →
      splitFirst [BT, BT, BT] (c ++ [BT, BT, BT]) = some (c, []) := by
  intro c
  induction c with
  | nil => intro _ _; decide
  | cons a t ih =>
    intro hni hlast
    have hnp : ¬ ([BT, BT, BT] : List Char).isPrefixOf (a :: (t ++ [BT, BT, BT])) = true := by
      intro hp
      rw [isPrefixOf_eq_true_iff, List.cons_prefix_cons] at hp
      obtain ⟨hba, hp2⟩ := hp
      cases t with
      | nil =>
        apply hlast
        simp [← hba]
      | cons b t2 =>
        rw [List.cons_append, List.cons_prefix_cons] at hp2
        obtain ⟨hbb, hp3⟩ := hp2
        cases t2 with
        | nil =>
          apply hlast
          simp [← hbb]
        | cons b2 t3 =>
          rw [List.cons_append, List.cons_prefix_cons] at hp3
          obtain ⟨hbb2, _⟩ := hp3
          apply hni
          refine List.IsPrefix.isInfix ?_
          rw [← hba, ← hbb, ← hbb2]
          exact ⟨t3, rfl⟩
    have harr : (a :: t) ++ [BT, BT, BT] = a :: (t ++ [BT, BT, BT]) := by simp
    rw [harr]
    simp only [splitFirst, if_neg hnp]
    have hni2 : ¬ [BT, BT, BT] <:+: t := fun hi => hni (List.infix_cons_iff.mpr (Or.inr hi))
    have hlast2 : t.getLast? ≠ some BT := by
      cases t with
      | nil => simp
      | cons b t2 =>
        intro hl
        exact hlast (by rw [List.getLast?_cons_cons]; exact hl)
    rw [ih hni2 hlast2]
    rfl

/-! ## Lemmas about stripping -/

theorem dropWhile_append_pos (p : Char → Bool) (x y : List Char)
    (hx : ¬ (x.dropWhile p).isEmpty = true) :
    (x ++ y).dropWhile p = x.dropWhile p ++ y := by
  rw [List.dropWhile_append, if_neg hx]

theorem dropWhile_append_all (p : Char → Bool) (x y : List Char)
    (hx : x.dropWhile p = []) : (x ++ y).dropWhile p = y.dropWhile p := by
  rw [List.dropWhile_append, if_pos (by simp [hx])]

theorem dropTrailingWS_append (x y : List Char)
    (hy : ¬ ((y.reverse).dropWhile py_isspace).isEmpty = true) :
    dropTrailingWS (x ++ y) = x ++ dropTrailingWS y := by
  unfold dropTrailingWS
  rw [List.reverse_append, dropWhile_append_pos _ _ _ hy, List.reverse_append,
    List.reverse_reverse]

theorem dropTrailingWS_append_all (x y : List Char)
    (hy : (y.reverse).dropWhile py_isspace = []) :
    dropTrailingWS (x ++ y) = dropTrailingWS x := by
  unfold dropTrailingWS
  rw [List.reverse_append, dropWhile_append_all _ _ _ hy]

/-- Stripping fixes a middle part that is flanked by non-whitespace on both
sides: only the outer whitespace of the flanks is removed. -/
theorem pyStripList_sandwich (x m y : List Char)
    (hx : ¬ (x.dropWhile py_isspace).isEmpty = true)
    (hy : ¬ ((y.reverse).dropWhile py_isspace).isEmpty = true) :
    pyStripList (x ++ m ++ y) = x.dropWhile py_isspace ++ m ++ dropTrailingWS y := by
  unfold pyStripList
  rw [List.append_assoc, dropWhile_append_pos _ _ _ hx, ← List.append_assoc,
    dropTrailingWS_append _ _ hy, List.append_assoc]

theorem infix_pyStrip_sandwich (x m y : List Char)
    (hx : ¬ (x.dropWhile py_isspace).isEmpty = true)
    (hy : ¬ ((y.reverse).dropWhile py_isspace).isEmpty = true) :
    m <:+: pyStripList (x ++ m ++ y) := by
  rw [pyStripList_sandwich x m y hx hy]
  exact List.infix_append _ _ _

/-- Stripping ignores an all-whitespace padding on both sides. -/
theorem pyStripList_pad (w l w2 : List Char)
    (hw : w.dropWhile py_isspace = [])
    (hw2 : (w2.reverse).dropWhile py_isspace = []) :
    pyStripList (w ++ l ++ w2) = pyStripList l := by
  unfold pyStripList
  rw [List.append_assoc, dropWhile_append_all _ _ _ hw]
  by_cases hl : (l.dropWhile py_isspace).isEmpty = true
  · have h1 : l.dropWhile py_isspace = [] := by simpa using hl
    rw [List.dropWhile_append, if_pos hl, h1]
    have hallw2 : ∀ c ∈ w2, py_isspace c := by
      intro c hcw
      exact (List.dropWhile_eq_nil_iff.mp hw2) c (List.mem_reverse.mpr hcw)
    have h2 : w2.dropWhile py_isspace = [] := List.dropWhile_eq_nil_iff.mpr hallw2
    rw [h2]
  · rw [dropWhile_append_pos _ _ _ hl, dropTrailingWS_append_all _ _ hw2]

theorem dropWhile_head_false (p : Char → Bool) :
    ∀ (l : List Char) (a : Char) (t : List Char), l.dropWhile p = a :: t → p a = false := by
  intro l
  induction l with
  | nil => intro a t h; cases h
  | cons b l2 ih =>
    intro a t h
    rw [List.dropWhile_cons] at h
    by_cases hb : p b = true
    · rw [if_pos hb] at h; exact ih a t h
    · rw [if_neg hb] at h
      injection h with h1 _
      subst h1
      simpa using hb

/-- The result of a strip has no leading whitespace. -/
theorem dropWhile_pyStripList (l : List Char) :
    (pyStripList l).dropWhile py_isspace = pyStripList l := by
  unfold pyStripList dropTrailingWS
  cases hd : l.dropWhile py_isspace with
  | nil => simp
  | cons a t =>
    have ha := dropWhile_head_false py_isspace l a t hd
    rw [List.reverse_cons]
    cases hrt : t.reverse.dropWhile py_isspace with
    | nil =>
      rw [dropWhile_append_all _ _ _ hrt]
      simp [List.dropWhile_cons, ha]
    | cons b rt2 =>
      rw [dropWhile_append_pos _ _ _ (by simp [hrt]), hrt, List.reverse_append]
      simp [List.dropWhile_cons, ha]

theorem dropTrailingWS_idem (l : List Char) :
    dropTrailingWS (dropTrailingWS l) = dropTrailingWS l := by
  unfold dropTrailingWS
  rw [List.reverse_reverse, List.dropWhile_idempotent]

theorem pyStripList_idem (l : List Char) :
    pyStripList (pyStripList l) = pyStripList l := by
  show dropTrailingWS ((pyStripList l).dropWhile py_isspace) = pyStripList l
  rw [dropWhile_pyStripList]
  show dropTrailingWS (dropTrailingWS (l.dropWhile py_isspace)) = _
  rw [dropTrailingWS_idem]
  rfl

theorem pyStripList_length_le (l : List Char) : (pyStripList l).length ≤ l.length := by
  unfold pyStripList dropTrailingWS
  calc ((((l.dropWhile py_isspace).reverse).dropWhile py_isspace).reverse).length
      = (((l.dropWhile py_isspace).reverse).dropWhile py_isspace).length := by
        rw [List.length_reverse]
    _ ≤ ((l.dropWhile py_isspace).reverse).length := (List.dropWhile_suffix py_isspace).length_le
    _ = (l.dropWhile py_isspace).length := by rw [List.length_reverse]
    _ ≤ l.length := (List.dropWhile_suffix py_isspace).length_le

/-! ## Lemmas about splitlines and the quality gate -/

theorem py_splitlinesAux_head : ∀ (fuel : Nat) (l acc : List Char), l.length ≤ fuel →
    (py_splitlinesAux fuel acc l).head? =
      some (acc.reverse ++ l.takeWhile (fun c => !py_islinebreak c)) := by
  intro fuel
  induction fuel with
  | zero =>
    intro l acc hl
    have hnil : l = [] := List.length_eq_zero.mp (Nat.le_zero.mp hl)
    subst hnil
    simp [py_splitlinesAux]
  | succ fuel ih =>
    intro l acc hl
    cases l with
    | nil => simp [py_splitlinesAux]
    | cons c rest =>
      by_cases hcr : c = '\r'
      · subst hcr
        cases rest with
        | nil => simp [py_splitlinesAux, List.takeWhile_cons, py_islinebreak]
        | cons c2 rest2 =>
          by_cases hc2 : c2 = '\n'
          · subst hc2
            simp [py_splitlinesAux, List.takeWhile_cons, py_islinebreak]
          · simp [py_splitlinesAux, hc2, List.takeWhile_cons, py_islinebreak]
      · by_cases hbr : py_islinebreak c = true
        · simp [py_splitlinesAux, hcr, hbr, List.takeWhile_cons]
        · have hstep : py_splitlinesAux (fuel+1) acc (c :: rest) =
              py_splitlinesAux fuel (c :: acc) rest := by
            simp [py_splitlinesAux, hcr, hbr]
          rw [hstep, ih rest (c :: acc) (by simp at hl; omega)]
          simp [List.takeWhile_cons, hbr, List.append_assoc]

/-- A non-empty string's line list starts with its first line. -/
theorem py_splitlines_eq_cons (s : String) (hs : s.data ≠ []) :
    ∃ rest, py_splitlines s = py_first_line s :: rest := by
  unfold py_splitlines
  rw [if_neg (by simpa using hs)]
  have h := py_splitlinesAux_head s.data.length s.data [] le_rfl
  cases haux : py_splitlinesAux s.data.length [] s.data with
  | nil => rw [haux] at h; cases h
  | cons l0 lrest =>
    rw [haux] at h
    simp only [List.head?_cons, Option.some.injEq, List.reverse_nil, List.nil_append] at h
    refine ⟨lrest.map (fun l => ⟨l⟩), ?_⟩
    rw [List.map_cons, h]
    rfl

theorem pyStrip_empty : pyStrip ("") = "" := rfl

theorem pyStrip_data (s : String) : (pyStrip s).data = pyStripList s.data := rfl

theorem string_ne_empty_of_data (s : String) (h : s.data ≠ []) : s ≠ "" := by
  intro he
  subst he
  exact h rfl

/-- The quality gate always yields a verdict: when the length test passes the
candidate is non-empty, so its line list is non-empty and the element access
cannot fail. -/
theorem quality_gate_ok (c : String) : quality_gate c = Except.ok (gate_spec c) := by
  unfold quality_gate gate_spec
  by_cases hlen : (pyStrip c).length > 50
  · have hne : c.data ≠ [] := by
      intro hnil
      have hc : c = "" := by
        cases c with
        | mk d =>
          simp only at hnil
          subst hnil
          rfl
      rw [hc] at hlen
      exact absurd hlen (by decide)
    obtain ⟨rest, hr⟩ := py_splitlines_eq_cons c hne
    rw [if_pos hlen, hr]
    show Except.ok (pyIn ("# ") (py_first_line c) || pyIn ("Overview") c) = _
    rw [decide_eq_true hlen, Bool.true_and]
  · rw [if_neg hlen]
    have hd : decide ((pyStrip c).length > 50) = false := decide_eq_false hlen
    rw [hd, Bool.false_and]

theorem quality_gate_total (c : String) : ∃ b, quality_gate c = Except.ok b :=
  ⟨gate_spec c, quality_gate_ok c⟩

theorem pyStrip_pyStrip (s : String) : pyStrip (pyStrip s) = pyStrip s :=
  congrArg String.mk (pyStripList_idem s.data)

theorem strip_code_block_no_fence (t : String) (h : pyIn FENCE t = false) :
    strip_code_block t = pyStrip t := by
  unfold strip_code_block
  rw [if_neg (by simp [h])]

/-- The fence stripper always returns an already-stripped string. -/
theorem pyStrip_strip_code_block (t : String) :
    pyStrip (strip_code_block t) = strip_code_block t := by
  unfold strip_code_block
  by_cases h : pyIn FENCE t = true
  · rw [if_pos h]
    cases pySplit FENCE t with
    | nil => exact pyStrip_pyStrip t
    | cons p0 ps =>
      cases ps with
      | nil => exact pyStrip_pyStrip t
      | cons p1 ps2 => exact pyStrip_pyStrip p1
  · rw [if_neg h]; exact pyStrip_pyStrip t

/-! ## Claims -/

/-- C4.  For every document section string, the quality gate accepts it if
and only if its fence-stripped, trimmed text has length strictly greater
than 50 characters and either its first line contains a heading marker or
the text contains the literal word Overview; in particular the given
51-character document starting with a heading is accepted, and the
200-character document with neither feature is rejected. -/
theorem claim_C4 :
    (∀ s : String,
      quality_gate (strip_code_block s) = Except.ok true ↔
        ((pyStrip (strip_code_block s)).length > 50 ∧
          (pyIn ("# ") (py_first_line (strip_code_block s)) = true ∨
            pyIn ("Overview") (strip_code_block s) = true)))
    ∧ quality_gate (strip_code_block
        ("# aaaaaaaaaaaaaaaaaaaaaaaaaaaaaaaaaaaaaaaaaaaaaaaaa")) = Except.ok true
    ∧ quality_gate (strip_code_block
        ("aaaaaaaaaaaaaaaaaaaaaaaaaaaaaaaaaaaaaaaaaaaaaaaaaaaaaaaaaaaaaaaaaaaaaaaaaaaaaaaaaaaaaaaaaaaaaaaaaaaaaaaaaaaaaaaaaaaaaaaaaaaaaaaaaaaaaaaaaaaaaaaaaaaaaaaaaaaaaaaaaaaaaaaaaaaaaaaaaaaaaaaaaaaaaaaaaaaaaaaa")) =
        Except.ok false := by
  refine ⟨?_, by decide, by decide⟩
  intro s
  rw [quality_gate_ok]
  unfold gate_spec
  constructor
  · intro h
    have hb : (decide ((pyStrip (strip_code_block s)).length > 50) &&
        (pyIn ("# ") (py_first_line (strip_code_block s)) ||
          pyIn ("Overview") (strip_code_block s))) = true := by
      exact Except.ok.inj h
    rw [Bool.and_eq_true, Bool.or_eq_true] at hb
    exact ⟨of_decide_eq_true hb.1, hb.2⟩
  · intro ⟨h1, h2⟩
    have : (decide ((pyStrip (strip_code_block s)).length > 50) &&
        (pyIn ("# ") (py_first_line (strip_code_block s)) ||
          pyIn ("Overview") (strip_code_block s))) = true := by
      rw [Bool.and_eq_true, Bool.or_eq_true]
      exact ⟨decide_eq_true h1, h2⟩
    rw [this]

/-- C10.  The quality-gate expression is total: the conjunction
short-circuits, so the line-list element access is reached only when the
stripped candidate exceeds 50 characters, in which case the candidate is
non-empty and has a first line; evaluating the gate on any fence-stripped
document section therefore never raises, even on an empty section. -/
theorem claim_C10 :
    (∀ c : String, (pyStrip c).length > 50 → py_splitlines c ≠ [])
    ∧ (∀ s : String, ∃ b, quality_gate (strip_code_block s) = Except.ok b) := by
  constructor
  · intro c hlen
    have hne : c.data ≠ [] := by
      intro hnil
      have hc : c = "" := by
        cases c with
        | mk d =>
          simp only at hnil
          subst hnil
          rfl
      rw [hc] at hlen
      exact absurd hlen (by decide)
    obtain ⟨rest, hr⟩ := py_splitlines_eq_cons c hne
    rw [hr]
    exact List.cons_ne_nil _ _
  · intro s
    exact quality_gate_total (strip_code_block s)

/-- Witness for C10 at concrete inputs: a 51-character candidate has a
non-empty line list, and the gate yields a verdict on the empty section. -/
theorem claim_C10_witness :
    py_splitlines ("# aaaaaaaaaaaaaaaaaaaaaaaaaaaaaaaaaaaaaaaaaaaaaaaaa") ≠ []
    ∧ ∃ b, quality_gate (strip_code_block ("")) = Except.ok b :=
  ⟨claim_C10.1 ("# aaaaaaaaaaaaaaaaaaaaaaaaaaaaaaaaaaaaaaaaaaaaaaaaa") (by decide),
   claim_C10.2 ("")⟩

/-- C6.  In the final parse, when the marker is present, a document section
whose fence-stripped trimmed length is under 20 is replaced by a freshly
synthesized fallback document, and otherwise kept; the code part is the
fence-stripped text before the marker in either case, so only the document
value depends on the re-check. -/
theorem claim_C6 (brief : String) (checks : List String) (attachments_meta : String)
    (round_num : Int) (rt : String) (hm : pyIn MARKER rt = true) :
    (final_parse brief checks attachments_meta round_num rt).1
        = strip_code_block (pySplit1 MARKER rt).1
    ∧ ((pyStrip (strip_code_block (pySplit1 MARKER rt).2)).length < 20 →
        (final_parse brief checks attachments_meta round_num rt).2
          = generate_readme_fallback brief checks attachments_meta round_num)
    ∧ (¬ (pyStrip (strip_code_block (pySplit1 MARKER rt).2)).length < 20 →
        (final_parse brief checks attachments_meta round_num rt).2
          = strip_code_block (pySplit1 MARKER rt).2) := by
  unfold final_parse
  rw [if_pos hm]
  by_cases hl : (pyStrip (strip_code_block (pySplit1 MARKER rt).2)).length < 20
  · rw [if_pos hl]
    exact ⟨rfl, fun _ => rfl, fun h => absurd hl h⟩
  · rw [if_neg hl]
    exact ⟨rfl, fun h => absurd h hl, fun _ => rfl⟩

/-- Witness for C6: a response whose document section is a short stub is
replaced by the fallback document while the code part is kept. -/
theorem claim_C6_witness :
    (final_parse ("b") [] ("") 1 ("code---README.md---stub")).1
        = strip_code_block (pySplit1 MARKER ("code---README.md---stub")).1
    ∧ (final_parse ("b") [] ("") 1 ("code---README.md---stub")).2
        = generate_readme_fallback ("b") [] ("") 1 := by
  have h := claim_C6 ("b") [] ("") 1 ("code---README.md---stub") (by decide)
  exact ⟨h.1, h.2.1 (by decide)⟩

/-! ## Claims about text extraction -/

theorem string_foldl_append (l : List String) :
    ∀ (a b : String), l.foldl (fun r s => r ++ s) (a ++ b) =
      a ++ l.foldl (fun r s => r ++ s) b := by
  induction l with
  | nil => intro a b; rfl
  | cons x xs ih =>
    intro a b
    rw [List.foldl_cons, List.foldl_cons, String.append_assoc]
    exact ih a (b ++ x)

theorem string_join_cons (t : String) (ts : List String) :
    String.join (t :: ts) = t ++ String.join ts := by
  show (t :: ts).foldl (fun r s => r ++ s) "" = t ++ ts.foldl (fun r s => r ++ s) ""
  rw [List.foldl_cons]
  have h1 : ("" : String) ++ t = t ++ "" := by
    rw [String.append_empty]
    rfl
  rw [h1]
  exact string_foldl_append ts t ""

theorem isEmpty_false_of_ne (s : String) (h : s ≠ "") : s.isEmpty = false :=
  Bool.eq_false_iff.mpr (fun he => h ((String.isEmpty_iff s).mp he))

theorem extract_text_chain (fs : List (String × Json))
    (hf : json_truthy ((fs.lookup ("output_text")).getD Json.null) = false) :
    extract_text (Json.obj fs) = extract_chain fs := by
  have hred : extract_text (Json.obj fs)
      = match fs.lookup ("output_text") with
        | some v =>
          if json_truthy v then
            (match v with
              | Json.str s => Except.ok s
              | _ => Except.error PyErr.typeError)
          else extract_chain fs
        | none => extract_chain fs := rfl
  rw [hred]
  cases hlo : fs.lookup ("output_text") with
  | none => rfl
  | some v =>
    rw [hlo, Option.getD_some] at hf
    simp [hf]

theorem output_items_concat (texts : List String) :
    ∀ acc : String,
      (texts.map (fun s =>
        Json.obj [(("content"), Json.arr [Json.obj [(("text"), Json.str s)]])])).foldl
          output_item_text (Except.ok acc) = Except.ok (acc ++ String.join texts) := by
  induction texts with
  | nil =>
    intro acc
    show Except.ok acc = Except.ok (acc ++ String.join [])
    rw [show String.join ([] : List String) = "" from rfl, String.append_empty]
  | cons t ts ih =>
    intro acc
    rw [List.map_cons, List.foldl_cons]
    have hstep : output_item_text (Except.ok acc)
        (Json.obj [(("content"), Json.arr [Json.obj [(("text"), Json.str t)]])])
        = Except.ok (acc ++ t) := rfl
    rw [hstep, ih (acc ++ t), string_join_cons, String.append_assoc]

theorem choices_concat (texts : List String) :
    ∀ acc : String,
      (texts.map (fun s =>
        Json.obj [(("message"), Json.obj [(("content"), Json.str s)])])).foldl
          choice_text (Except.ok acc) = Except.ok (acc ++ String.join texts) := by
  induction texts with
  | nil =>
    intro acc
    show Except.ok acc = Except.ok (acc ++ String.join [])
    rw [show String.join ([] : List String) = "" from rfl, String.append_empty]
  | cons t ts ih =>
    intro acc
    rw [List.map_cons, List.foldl_cons]
    have hstep : choice_text (Except.ok acc)
        (Json.obj [(("message"), Json.obj [(("content"), Json.str t)])])
        = Except.ok (acc ++ t) := by
      by_cases ht : t = ""
      · subst ht
        have hred : choice_text (Except.ok acc)
            (Json.obj [(("message"), Json.obj [(("content"), Json.str ("")) ])])
            = if json_truthy (Json.str ("")) then Except.ok (acc ++ ("")) else Except.ok acc := rfl
        rw [hred, if_neg (by decide), String.append_empty]
      · have hred : choice_text (Except.ok acc)
            (Json.obj [(("message"), Json.obj [(("content"), Json.str t)])])
            = if json_truthy (Json.str t) then Except.ok (acc ++ t) else Except.ok acc := rfl
        rw [hred, if_pos (by
          simp only [json_truthy, Bool.not_eq_true']
          exact isEmpty_false_of_ne t ht)]
    rw [hstep, ih (acc ++ t), string_join_cons, String.append_assoc]

/-- C9.  Text extraction from the remote JSON tries exactly three strategies
in this order: a truthy top-level `output_text` string wins outright; else,
when an `output` key is present, the text sub-fields of its items' content
entries are concatenated in order; else, when a `choices` key is present,
the chat messages' contents are concatenated in order; when none applies the
result is the empty string, not an error. -/
theorem claim_C9 :
    (∀ (fs : List (String × Json)) (s : String),
      fs.lookup ("output_text") = some (Json.str s) → s ≠ "" →
        extract_text (Json.obj fs) = Except.ok s)
    ∧ (∀ (fs : List (String × Json)) (items : List Json),
      json_truthy ((fs.lookup ("output_text")).getD Json.null) = false →
      fs.lookup ("output") = some (Json.arr items) →
        extract_text (Json.obj fs) = items.foldl output_item_text (Except.ok ("")))
    ∧ (∀ (fs : List (String × Json)) (chs : List Json),
      json_truthy ((fs.lookup ("output_text")).getD Json.null) = false →
      fs.lookup ("output") = none →
      fs.lookup ("choices") = some (Json.arr chs) →
        extract_text (Json.obj fs) = chs.foldl choice_text (Except.ok ("")))
    ∧ (∀ fs : List (String × Json),
      json_truthy ((fs.lookup ("output_text")).getD Json.null) = false →
      fs.lookup ("output") = none →
      fs.lookup ("choices") = none →
        extract_text (Json.obj fs) = Except.ok (""))
    ∧ (∀ texts : List String,
      (texts.map (fun s =>
        Json.obj [(("content"), Json.arr [Json.obj [(("text"), Json.str s)]])])).foldl
          output_item_text (Except.ok ("")) = Except.ok (String.join texts))
    ∧ (∀ texts : List String,
      (texts.map (fun s =>
        Json.obj [(("message"), Json.obj [(("content"), Json.str s)])])).foldl
          choice_text (Except.ok ("")) = Except.ok (String.join texts)) := by
  refine ⟨?_, ?_, ?_, ?_, ?_, ?_⟩
  · intro fs s hlo hs
    have hred : extract_text (Json.obj fs)
        = match fs.lookup ("output_text") with
          | some v =>
            if json_truthy v then
              (match v with
                | Json.str s => Except.ok s
                | _ => Except.error PyErr.typeError)
            else extract_chain fs
          | none => extract_chain fs := rfl
    rw [hred, hlo]
    have hpos : json_truthy (Json.str s) = true := by
      simp only [json_truthy, Bool.not_eq_true']
      exact isEmpty_false_of_ne s hs
    simp [hpos]
  · intro fs items hf ho
    rw [extract_text_chain fs hf]
    unfold extract_chain
    rw [ho]
    rfl
  · intro fs chs hf ho hc
    rw [extract_text_chain fs hf]
    unfold extract_chain
    rw [ho, hc]
    rfl
  · intro fs hf ho hc
    rw [extract_text_chain fs hf]
    unfold extract_chain
    rw [ho, hc]
    rfl
  · intro texts
    have h := output_items_concat texts ("")
    rwa [show ("" : String) ++ String.join texts = String.join texts from rfl] at h
  · intro texts
    have h := choices_concat texts ("")
    rwa [show ("" : String) ++ String.join texts = String.join texts from rfl] at h

/-- Witness for C9 at concrete JSON bodies, one per strategy. -/
theorem claim_C9_witness :
    extract_text (Json.obj [(("output_text"), Json.str ("hi"))]) = Except.ok ("hi")
    ∧ extract_text (Json.obj [(("output"), Json.arr [Json.obj
        [(("content"), Json.arr [Json.obj [(("text"), Json.str ("ab"))]])]])])
        = Except.ok ("ab")
    ∧ extract_text (Json.obj [(("choices"), Json.arr [Json.obj
        [(("message"), Json.obj [(("content"), Json.str ("cd"))])]])])
        = Except.ok ("cd")
    ∧ extract_text (Json.obj []) = Except.ok ("") := by
  refine ⟨claim_C9.1 _ ("hi") rfl (by decide), ?_, ?_,
    claim_C9.2.2.2.1 [] (by decide) rfl rfl⟩
  · rw [claim_C9.2.1 _ [Json.obj [(("content"),
      Json.arr [Json.obj [(("text"), Json.str ("ab"))]])]] (by decide) (by rfl)]
    rfl
  · rw [claim_C9.2.2.1 _ [Json.obj [(("message"),
      Json.obj [(("content"), Json.str ("cd"))])]] (by decide) (by rfl) (by rfl)]
    rfl

/-! ## Claims about the retry loop and error propagation -/

theorem string_length_zero_eq (a : String) (hz : a.length = 0) : a = "" := by
  cases a with
  | mk d =>
    rw [String.length_mk, List.length_eq_zero] at hz
    subst hz
    rfl

theorem append_ne_empty_right (a b : String) (hb : b ≠ "") : a ++ b ≠ "" := by
  intro h
  have hlen := congrArg String.length h
  rw [String.length_append, show String.length ("") = 0 from rfl] at hlen
  exact hb (string_length_zero_eq b (by omega))

theorem generate_readme_fallback_ne (brief : String) (checks : List String)
    (attachments_meta : String) (round_num : Int) :
    generate_readme_fallback brief checks attachments_meta round_num ≠ "" := by
  unfold generate_readme_fallback
  exact append_ne_empty_right _ _ (by decide)

/-- The document part of the final parse is never empty: either it passed
the 20-character re-check, or it was replaced by the fallback document. -/
theorem final_parse_readme_ne (brief : String) (checks : List String)
    (attachments_meta : String) (round_num : Int) (rt : String) :
    (final_parse brief checks attachments_meta round_num rt).2 ≠ "" := by
  unfold final_parse
  by_cases hm : pyIn MARKER rt = true
  · rw [if_pos hm]
    by_cases hl : (pyStrip (strip_code_block (pySplit1 MARKER rt).2)).length < 20
    · rw [if_pos hl]
      exact generate_readme_fallback_ne brief checks attachments_meta round_num
    · rw [if_neg hl]
      intro hEq
      apply hl
      have hEq2 : strip_code_block (pySplit1 MARKER rt).2 = "" := hEq
      rw [hEq2]
      decide
  · rw [if_neg hm]
    exact generate_readme_fallback_ne brief checks attachments_meta round_num

theorem finish_generation_readme_ne (brief : String) (checks : List String)
    (attachments_meta : String) (round_num : Int) (saved : List SavedAttachment)
    (lr : Option String) :
    (finish_generation brief checks attachments_meta round_num saved lr).files.readme_md ≠ "" := by
  unfold finish_generation
  exact final_parse_readme_ne brief checks attachments_meta round_num _

/-- Unfolding of `generate_app_code` into the retry loop on the assembled
prompt followed by the finishing stage. -/
theorem generate_app_code_eq (svc : String → Nat → Except PyErr Json) (brief : String)
    (attachments : List Attachment) (checks : List String) (round_num : Int)
    (prev_readme : Option String) :
    generate_app_code svc brief attachments checks round_num prev_readme =
      Except.bind
        (retry_go svc (assembled_prompt brief attachments checks round_num prev_readme)
          (List.range' 1 max_attempts))
        (fun lr => Except.ok (finish_generation brief checks
          (summarize_attachment_meta (decode_attachments attachments).2
            (decode_attachments attachments).1) round_num
          (decode_attachments attachments).1 lr)) := rfl

/-- A raised error from the remote call on the first attempt of the loop is
not caught: it aborts the loop. -/
theorem retry_go_first_error (svc : String → Nat → Except PyErr Json) (P : String)
    (a : Nat) (rest : List Nat) (e : PyErr) (h : svc P a = Except.error e) :
    retry_go svc P (a :: rest) = Except.error e := by
  unfold retry_go ai_pipe_generate
  rw [h]
  rfl

/-- Counterexample to C1: a transport failure on the first attempt is not
recovered inside the retry loop — `generate_app_code` propagates the raised
error, and the caller receives no `GenerationResult`. -/
theorem claim_C1_counterexample :
    generate_app_code conn_fail_remote ("b") [] [] 1 none
      = Except.error PyErr.connectionError := rfl

/-- C1 as amended: the retry loop does not catch transport failures.  When
the remote call of the first attempt raises, `generate_app_code` raises the
same error to its caller instead of returning a `GenerationResult`. -/
theorem claim_C1 (svc : String → Nat → Except PyErr Json) (brief : String)
    (attachments : List Attachment) (checks : List String) (round_num : Int)
    (prev_readme : Option String) (e : PyErr)
    (h1 : svc (assembled_prompt brief attachments checks round_num prev_readme) 1
      = Except.error e) :
    generate_app_code svc brief attachments checks round_num prev_readme
      = Except.error e := by
  rw [generate_app_code_eq]
  rw [show (List.range' 1 max_attempts) = 1 :: [2] from rfl]
  rw [retry_go_first_error svc _ 1 [2] e h1]
  rfl

/-- Witness for the amended C1 at a concrete always-failing service. -/
theorem claim_C1_witness :
    generate_app_code timeout_remote ("w") [] [] 1 none
      = Except.error PyErr.timeoutError :=
  claim_C1 timeout_remote ("w") [] [] 1 none PyErr.timeoutError rfl

/-- Counterexample to C2: when the accepted remote text begins with the
marker, the returned `index.html` value is the empty string. -/
theorem claim_C2_counterexample :
    generate_app_code marker_first_remote ("b") [] [] 1 none
      = Except.ok { files := { index_html := "",
                               readme_md := ("# Overview aaaaaaaaaaaaaaaaaaaaaaaaaaaaaaaaaaaaaaaaaaaaaaaaa") },
                    attachments := [] } := rfl

/-- C2 as amended: whenever `generate_app_code` returns a result, the
README.md value is a non-empty string; the index.html value, however, can be
empty (the claim fails for it, see the counterexample). -/
theorem claim_C2 (svc : String → Nat → Except PyErr Json) (brief : String)
    (attachments : List Attachment) (checks : List String) (round_num : Int)
    (prev_readme : Option String) (r : GenerationResult)
    (h : generate_app_code svc brief attachments checks round_num prev_readme
      = Except.ok r) :
    r.files.readme_md ≠ "" := by
  rw [generate_app_code_eq] at h
  cases hr : retry_go svc (assembled_prompt brief attachments checks round_num prev_readme)
      (List.range' 1 max_attempts) with
  | error e =>
    rw [hr] at h
    exact Except.noConfusion
      (show (Except.error e : Except PyErr GenerationResult) = Except.ok r from h)
  | ok lr =>
    rw [hr] at h
    have h3 := Except.ok.inj h
    rw [← h3]
    exact finish_generation_readme_ne brief checks _ round_num _ lr

/-- Witness for the amended C2 at a concrete service. -/
theorem claim_C2_witness :
    ({ files := { index_html := "",
                  readme_md := ("# Overview aaaaaaaaaaaaaaaaaaaaaaaaaaaaaaaaaaaaaaaaaaaaaaaaa") },
       attachments := [] } : GenerationResult).files.readme_md ≠ "" :=
  claim_C2 marker_first_remote ("b") [] [] 1 none _ rfl

/-- The loop performs at most one remote invocation per attempt index. -/
theorem retry_calls_le (svc : String → Nat → Except PyErr Json) (prompt : String) :
    ∀ l : List Nat, retry_calls svc prompt l ≤ l.length := by
  intro l
  induction l with
  | nil => exact Nat.le_refl 0
  | cons a rest ih =>
    unfold retry_calls
    cases h : ai_pipe_generate svc prompt a with
    | error e =>
      simp only [h, List.length_cons]
      omega
    | ok text =>
      simp only [h]
      by_cases hc : text ≠ "" ∧ pyIn MARKER text = true
      · rw [if_pos hc]
        cases hg : quality_gate (strip_code_block (pySplit1 MARKER text).2) with
        | error e2 =>
          simp only [hg, List.length_cons]
          omega
        | ok b =>
          cases b with
          | false =>
            simp only [hg, List.length_cons]
            omega
          | true =>
            simp only [hg, List.length_cons]
            omega
      · rw [if_neg hc]
        simp only [List.length_cons]
        omega

/-- An accepted first response short-circuits the loop. -/
theorem retry_go_first_accepted (svc : String → Nat → Except PyErr Json) (P : String)
    (a : Nat) (rest : List Nat) (t : String)
    (h1 : ai_pipe_generate svc P a = Except.ok t)
    (hcond : t ≠ "" ∧ pyIn MARKER t = true)
    (hg : quality_gate (strip_code_block (pySplit1 MARKER t).2) = Except.ok true) :
    retry_go svc P (a :: rest) = Except.ok (some t) := by
  have hred : retry_go svc P (a :: rest)
      = Except.bind (ai_pipe_generate svc P a) (fun text =>
          if text ≠ "" ∧ pyIn MARKER text = true then
            Except.bind (quality_gate (strip_code_block (pySplit1 MARKER text).2))
              (fun accepted => if accepted then Except.ok (some text) else retry_go svc P rest)
          else retry_go svc P rest) := rfl
  rw [hred, h1]
  show (if t ≠ "" ∧ pyIn MARKER t = true then
      Except.bind (quality_gate (strip_code_block (pySplit1 MARKER t).2))
        (fun accepted => if accepted then Except.ok (some t) else retry_go svc P rest)
    else retry_go svc P rest) = Except.ok (some t)
  rw [if_pos hcond, hg]
  rfl

/-- An accepted first response costs exactly one remote invocation. -/
theorem retry_calls_first_accepted (svc : String → Nat → Except PyErr Json) (P : String)
    (a : Nat) (rest : List Nat) (t : String)
    (h1 : ai_pipe_generate svc P a = Except.ok t)
    (hcond : t ≠ "" ∧ pyIn MARKER t = true)
    (hg : quality_gate (strip_code_block (pySplit1 MARKER t).2) = Except.ok true) :
    retry_calls svc P (a :: rest) = 1 := by
  unfold retry_calls
  simp only [h1]
  rw [if_pos hcond]
  simp only [hg]

/-- C5.  One call of `generate_app_code` invokes the remote service at most
`max_attempts = 2` times (the attempts recurse sequentially by
construction), and as soon as the first attempt's response contains the
marker and passes the quality gate, the loop returns it and no further
attempt is made. -/
theorem claim_C5 (svc : String → Nat → Except PyErr Json) (brief : String)
    (attachments : List Attachment) (checks : List String) (round_num : Int)
    (prev_readme : Option String) :
    generate_remote_calls svc brief attachments checks round_num prev_readme ≤ max_attempts
    ∧ (∀ t : String,
        ai_pipe_generate svc (assembled_prompt brief attachments checks round_num prev_readme) 1
          = Except.ok t →
        (t ≠ "" ∧ pyIn MARKER t = true) →
        quality_gate (strip_code_block (pySplit1 MARKER t).2) = Except.ok true →
        generate_remote_calls svc brief attachments checks round_num prev_readme = 1
        ∧ retry_go svc (assembled_prompt brief attachments checks round_num prev_readme)
            (List.range' 1 max_attempts) = Except.ok (some t)) := by
  constructor
  · unfold generate_remote_calls
    have hle := retry_calls_le svc
      (assembled_prompt brief attachments checks round_num prev_readme)
      (List.range' 1 max_attempts)
    have hlen : (List.range' 1 max_attempts).length = max_attempts := by
      simp [List.length_range']
    omega
  · intro t h1 hcond hg
    refine ⟨?_, ?_⟩
    · unfold generate_remote_calls
      rw [show List.range' 1 max_attempts = 1 :: [2] from rfl]
      exact retry_calls_first_accepted svc _ 1 [2] t h1 hcond hg
    · rw [show List.range' 1 max_attempts = 1 :: [2] from rfl]
      exact retry_go_first_accepted svc _ 1 [2] t h1 hcond hg

/-- Witness for C5: with an immediately acceptable response the pipeline
makes exactly one remote call and the loop returns that response. -/
theorem claim_C5_witness :
    generate_remote_calls good_remote ("b") [] [] 1 none = 1
    ∧ retry_go good_remote (assembled_prompt ("b") [] [] 1 none) (List.range' 1 max_attempts)
        = Except.ok (some
          ("<html>app</html>\n---README.md---\n# Overview aaaaaaaaaaaaaaaaaaaaaaaaaaaaaaaaaaaaaaaaaaaaa")) :=
  (claim_C5 good_remote ("b") [] [] 1 none).2 _ (by decide) (by decide) (by decide)

/-- Counterexample to C7: wrapping content that ends in a backtick shifts
the second fence occurrence, so the enclosed content is not returned
trimmed: Python yields the text between the first two of the three fence
runs it finds. -/
theorem claim_C7_counterexample :
    strip_code_block (FENCE ++ ("x`") ++ FENCE) = ("x")
    ∧ pyStrip ("x`") = ("x`")
    ∧ strip_code_block (FENCE ++ ("x`") ++ FENCE) ≠ pyStrip ("x`") :=
  ⟨by decide, by decide, by decide⟩

/-- C7 as amended: fence-free text is returned trimmed unchanged, and a
single fence pair is unwrapped to the trimmed enclosed content provided the
content contains no fence marker and does not end in a backtick. -/
theorem claim_C7 :
    (∀ t : String, pyIn FENCE t = false → strip_code_block t = pyStrip t)
    ∧ (∀ c : String, pyIn FENCE c = false → c.data.getLast? ≠ some BT →
        strip_code_block (FENCE ++ c ++ FENCE) = pyStrip c) := by
  constructor
  · intro t h
    exact strip_code_block_no_fence t h
  · intro c hf hlast
    have hni : ¬ [BT, BT, BT] <:+: c.data := by
      rw [← fence_data]
      exact (pyIn_eq_false_iff FENCE c).mp hf
    have hl : (FENCE ++ c ++ FENCE).data = [BT, BT, BT] ++ (c.data ++ [BT, BT, BT]) := by
      rw [String.data_append, String.data_append, fence_data, List.append_assoc]
    have hsf1 : splitFirst ([BT, BT, BT]) ((FENCE ++ c ++ FENCE).data)
        = some ([], c.data ++ [BT, BT, BT]) := by
      rw [hl]
      have hb := splitFirst_boundary [BT, BT, BT] (c.data ++ [BT, BT, BT]) [] (by decide)
      simpa using hb
    have hin : pyIn FENCE (FENCE ++ c ++ FENCE) = true := by
      unfold pyIn
      rw [fence_data, hsf1]
      rfl
    have hsf2 : splitFirst [BT, BT, BT] (c.data ++ [BT, BT, BT]) = some (c.data, []) :=
      splitFirst_fence_close c.data hni hlast
    have hlen : ((FENCE ++ c ++ FENCE).data).length = c.data.length + 6 := by
      rw [hl]
      simp only [List.length_append, List.length_cons, List.length_nil]
      omega
    have hsplit : pySplit FENCE (FENCE ++ c ++ FENCE) = [(""), c, ("")] := by
      unfold pySplit
      rw [fence_data, hlen]
      have e1 : pySplitAux [BT, BT, BT] (c.data.length + 6 + 1) ((FENCE ++ c ++ FENCE).data)
          = [] :: pySplitAux [BT, BT, BT] (c.data.length + 6) (c.data ++ [BT, BT, BT]) := by
        show pySplitAux [BT, BT, BT] ((c.data.length + 6) + 1) ((FENCE ++ c ++ FENCE).data)
          = [] :: pySplitAux [BT, BT, BT] (c.data.length + 6) (c.data ++ [BT, BT, BT])
        simp only [pySplitAux, hsf1]
      have e2 : pySplitAux [BT, BT, BT] (c.data.length + 6) (c.data ++ [BT, BT, BT])
          = c.data :: pySplitAux [BT, BT, BT] (c.data.length + 5) [] := by
        show pySplitAux [BT, BT, BT] ((c.data.length + 5) + 1) (c.data ++ [BT, BT, BT])
          = c.data :: pySplitAux [BT, BT, BT] (c.data.length + 5) []
        simp only [pySplitAux, hsf2]
      have e3 : pySplitAux [BT, BT, BT] (c.data.length + 5) ([] : List Char) = [[]] := by
        show pySplitAux [BT, BT, BT] ((c.data.length + 4) + 1) ([] : List Char) = [[]]
        simp only [pySplitAux]
        rfl
      rw [e1, e2, e3]
      rfl
    unfold strip_code_block
    rw [if_pos hin, hsplit]

/-- Witness for the amended C7 at concrete inputs. -/
theorem claim_C7_witness :
    strip_code_block ("hello") = pyStrip ("hello")
    ∧ strip_code_block (FENCE ++ ("abc") ++ FENCE) = pyStrip ("abc") :=
  ⟨claim_C7.1 ("hello") (by decide), claim_C7.2 ("abc") (by decide) (by decide)⟩

/-! ## Claims about the assembled prompt -/

theorem not_infix_append_split (n x y : List Char) (c : Char) (hc : c ∉ n)
    (hx : ¬ n <:+: x) (hy : ¬ n <:+: y) : ¬ n <:+: x ++ c :: y :=
  fun h => ((infix_split_at_char c y n hc x h).elim hx hy)

theorem infix_append_left_lift (n x y : List Char) (h : n <:+: y) : n <:+: x ++ y := by
  obtain ⟨s, t, rfl⟩ := h
  exact ⟨x ++ s, t, by simp [List.append_assoc]⟩

theorem infix_append_right_lift (n x y : List Char) (h : n <:+: x) : n <:+: x ++ y := by
  obtain ⟨s, t, rfl⟩ := h
  exact ⟨s, t ++ y, by simp [List.append_assoc]⟩

theorem context_note_some (round_num : Int) (p : String) :
    context_note round_num (some p)
      = if round_num = 2 ∧ p ≠ "" then
          ("\n### Previous README.md:\n") ++ p ++
          ("\n\nRevise and enhance this project according to the new brief below.\n")
        else ("") := rfl

/-- Counterexample to C8: with round 1 and no prior document the prompt can
still contain the directive, because the brief is embedded verbatim. -/
theorem claim_C8_counterexample :
    pyIn REVISE_DIRECTIVE
      (build_prompt REVISE_DIRECTIVE ("") [] 1 none) = true := by decide

/-- C8 as amended.  `generate_app_code` passes `build_prompt` to the remote
service on every attempt (see `generate_app_code_eq`).  For round 2 with a
non-empty prior document, the prompt contains the prior document's full text
and the directive.  Otherwise the revision context note is empty, and the
prompt contains the directive only if the brief, the attachment previews,
the checks rendering or the round rendering already contains it. -/
theorem claim_C8 (brief attachments_meta : String) (checks : List String)
    (round_num : Int) (prev_readme : Option String) :
    (∀ p : String, round_num = 2 → prev_readme = some p → p ≠ "" →
      pyIn p (build_prompt brief attachments_meta checks round_num prev_readme) = true
      ∧ pyIn REVISE_DIRECTIVE
          (build_prompt brief attachments_meta checks round_num prev_readme) = true)
    ∧ ((round_num ≠ 2 ∨ prev_readme = none ∨ prev_readme = some ("")) →
      context_note round_num prev_readme = ("")
      ∧ (pyIn REVISE_DIRECTIVE brief = false →
         pyIn REVISE_DIRECTIVE attachments_meta = false →
         pyIn REVISE_DIRECTIVE (py_repr_list checks) = false →
         pyIn REVISE_DIRECTIVE (toString round_num) = false →
         pyIn REVISE_DIRECTIVE
           (build_prompt brief attachments_meta checks round_num prev_readme) = false)) := by
  constructor
  · intro p h2 hprev hpne
    subst h2
    subst hprev
    have hcn : context_note 2 (some p)
        = ("\n### Previous README.md:\n") ++ p ++
          ("\n\nRevise and enhance this project according to the new brief below.\n") := by
      rw [context_note_some, if_pos ⟨rfl, hpne⟩]
    constructor
    · apply pyIn_of_infix
      unfold build_prompt
      rw [hcn]
      simp only [String.data_append, List.append_assoc]
      refine infix_append_left_lift _ _ _ (infix_append_left_lift _ _ _
        (infix_append_left_lift _ _ _ (infix_append_left_lift _ _ _
          (infix_append_left_lift _ _ _ (infix_append_left_lift _ _ _ ?_)))))
      exact ⟨[], _, rfl⟩
    · apply pyIn_of_infix
      unfold build_prompt
      rw [hcn]
      simp only [String.data_append, List.append_assoc]
      refine infix_append_left_lift _ _ _ (infix_append_left_lift _ _ _
        (infix_append_left_lift _ _ _ (infix_append_left_lift _ _ _
          (infix_append_left_lift _ _ _ (infix_append_left_lift _ _ _
            (infix_append_left_lift _ _ _ ?_))))))
      exact infix_append_right_lift _ _ _ (by decide)
  · intro hno
    have hcn : context_note round_num prev_readme = ("") := by
      rcases hno with h | h | h
      · cases prev_readme with
        | none => rfl
        | some p =>
          rw [context_note_some, if_neg (fun hand => h hand.1)]
      · rw [h]
        rfl
      · rw [h, context_note_some, if_neg (fun hand => hand.2 rfl)]
    refine ⟨hcn, ?_⟩
    intro h1 h2 h3 h4
    rw [pyIn_eq_false_iff]
    unfold build_prompt
    rw [hcn]
    simp only [String.data_append, List.append_assoc]
    have hR : ('\n') ∉ REVISE_DIRECTIVE.data := by decide
    have k1 : ¬ REVISE_DIRECTIVE.data <:+: (toString round_num).data :=
      (pyIn_eq_false_iff _ _).mp h4
    have k2 : ¬ REVISE_DIRECTIVE.data <:+: brief.data := (pyIn_eq_false_iff _ _).mp h1
    have k3 : ¬ REVISE_DIRECTIVE.data <:+: attachments_meta.data :=
      (pyIn_eq_false_iff _ _).mp h2
    have k4 : ¬ REVISE_DIRECTIVE.data <:+: (py_repr_list checks).data :=
      (pyIn_eq_false_iff _ _).mp h3
    refine not_infix_append_split _
      (("\nYou are a professional web developer assistant.\n\n### Round").data) _ ('\n') hR
      (by decide) ?_
    refine not_infix_append_split _ ((toString round_num).data) _ ('\n') hR k1 ?_
    refine not_infix_append_split _ (("\n### Task").data) _ ('\n') hR (by decide) ?_
    refine not_infix_append_split _ (brief.data) _ ('\n') hR k2 ?_
    refine not_infix_append_split _ (("\n\n\n### Attachments (if any)").data) _ ('\n') hR
      (by decide) ?_
    refine not_infix_append_split _ (attachments_meta.data) _ ('\n') hR k3 ?_
    refine not_infix_append_split _ (("\n### Evaluation checks").data) _ ('\n') hR
      (by decide) ?_
    refine not_infix_append_split _ ((py_repr_list checks).data) _ ('\n') hR k4 ?_
    decide

/-- Witness for the amended C8: at round 2 with prior document the prompt
carries the document and the directive; at round 1 with benign inputs the
note is empty and the directive is absent. -/
theorem claim_C8_witness :
    (pyIn ("# Old") (build_prompt ("b") ("") [] 2 (some ("# Old"))) = true
      ∧ pyIn REVISE_DIRECTIVE (build_prompt ("b") ("") [] 2 (some ("# Old"))) = true)
    ∧ (context_note 1 none = ("")
      ∧ pyIn REVISE_DIRECTIVE (build_prompt ("b") ("") [] 1 none) = false) := by
  constructor
  · exact (claim_C8 ("b") ("") [] 2 (some ("# Old"))).1 ("# Old") rfl rfl (by decide)
  · have h := (claim_C8 ("b") ("") [] 1 none).2 (Or.inr (Or.inl rfl))
    exact ⟨h.1, h.2 (by decide) (by decide) (by decide) (by decide)⟩

/-! ## Claim C3: total exhaustion falls back -/

theorem dropWhile_append_not_empty (p : Char → Bool) (x z : List Char)
    (hx : ¬ (x.dropWhile p).isEmpty = true) : ¬ ((x ++ z).dropWhile p).isEmpty = true := by
  rw [dropWhile_append_pos p x z hx]
  cases hd : x.dropWhile p with
  | nil => rw [hd] at hx; exact absurd rfl hx
  | cons a t => simp

/-- When the loop rejects every attempt (no marker in any returned text),
the whole loop returns `none`. -/
theorem retry_go_none (svc : String → Nat → Except PyErr Json) (P : String) :
    ∀ l : List Nat,
      (∀ a ∈ l, ∃ t, ai_pipe_generate svc P a = Except.ok t ∧ pyIn MARKER t = false) →
      retry_go svc P l = Except.ok none := by
  intro l
  induction l with
  | nil => intro _; rfl
  | cons a rest ih =>
    intro h
    obtain ⟨t, h1, h2⟩ := h a (List.mem_cons_self a rest)
    have hred : retry_go svc P (a :: rest)
        = Except.bind (ai_pipe_generate svc P a) (fun text =>
            if text ≠ "" ∧ pyIn MARKER text = true then
              Except.bind (quality_gate (strip_code_block (pySplit1 MARKER text).2))
                (fun accepted => if accepted then Except.ok (some text) else retry_go svc P rest)
            else retry_go svc P rest) := rfl
    rw [hred, h1]
    show (if t ≠ "" ∧ pyIn MARKER t = true then
        Except.bind (quality_gate (strip_code_block (pySplit1 MARKER t).2))
          (fun accepted => if accepted then Except.ok (some t) else retry_go svc P rest)
      else retry_go svc P rest) = Except.ok none
    rw [if_neg (fun hand => Bool.false_ne_true (h2 ▸ hand.2))]
    exact ih (fun a2 ha2 => h a2 (List.mem_cons_of_mem a ha2))

/-- The stripped result of a part flanked by non-whitespace keeps at least
the leading block and the trimmed tail. -/
theorem pyStrip_length_ge (x y : List Char) (hx : x.dropWhile py_isspace = x)
    (hxne : x ≠ [])
    (hy : ¬ ((y.reverse).dropWhile py_isspace).isEmpty = true) :
    (pyStripList (x ++ y)).length = x.length + (dropTrailingWS y).length := by
  unfold pyStripList
  rw [dropWhile_append_pos _ _ _ (by rw [hx]; simpa using hxne), hx,
    dropTrailingWS_append _ _ hy, List.length_append]

/-- Counterexample to C3: a brief that itself contains the marker derails
the final split of the fallback response, so the returned README is not the
fallback document and the code artifact does not contain the brief. -/
theorem claim_C3_counterexample :
    (generate_app_code plain_remote ("---README.md---") [] [] 1 none).toOption.map
      (fun r => decide (r.files.readme_md = generate_readme_fallback ("---README.md---") [] ("") 1)
        || pyIn ("---README.md---") r.files.index_html) = some false := by decide

/-- C3 as amended.  If every attempt returns text without the marker, and
the synthesized fallback page and document contain no code fence and no
marker occurrence besides the separator itself, then the result is the
trimmed fallback page (which contains the brief) and the trimmed fallback
document (which contains the fallback note). -/
theorem claim_C3 (svc : String → Nat → Except PyErr Json) (brief : String)
    (attachments : List Attachment) (checks : List String) (round_num : Int)
    (prev_readme : Option String) (meta : String)
    (hmeta : meta = summarize_attachment_meta (decode_attachments attachments).2
        (decode_attachments attachments).1)
    (hsvc : ∀ a ∈ List.range' 1 max_attempts, ∃ t,
      ai_pipe_generate svc (assembled_prompt brief attachments checks round_num prev_readme) a
        = Except.ok t ∧ pyIn MARKER t = false)
    (hm : pyIn MARKER (fallback_code_part brief ++ ("---README.md--")) = false)
    (hf1 : pyIn FENCE (fallback_code_part brief) = false)
    (hf2 : pyIn FENCE (generate_readme_fallback brief checks meta round_num) = false) :
    generate_app_code svc brief attachments checks round_num prev_readme
      = Except.ok { files := { index_html := pyStrip (fallback_code_part brief),
                               readme_md := pyStrip (generate_readme_fallback brief checks meta round_num) },
                    attachments := (decode_attachments attachments).1 }
      ∧ pyIn brief (pyStrip (fallback_code_part brief)) = true
      ∧ pyIn ("This README was generated as a fallback")
          (pyStrip (generate_readme_fallback brief checks meta round_num)) = true := by
  have hocc : ¬ MARKER.data <:+: ((fallback_code_part brief).data ++ MARKER.data.dropLast) := by
    have h0 := (pyIn_eq_false_iff _ _).mp hm
    rw [String.data_append] at h0
    rwa [show MARKER.data.dropLast = ("---README.md--").data from by decide]
  have hdata : (fallback_response_text brief checks meta round_num).data
      = (fallback_code_part brief).data ++ (MARKER.data ++ (('\n') ::
          ((generate_readme_fallback brief checks meta round_num).data ++ [('\n')]))) := by
    simp only [fallback_response_text, fallback_code_part, MARKER, String.data_append,
      List.append_assoc, List.cons_append, List.nil_append]
  have hsf : splitFirst MARKER.data (fallback_response_text brief checks meta round_num).data
      = some ((fallback_code_part brief).data, ('\n') ::
          ((generate_readme_fallback brief checks meta round_num).data ++ [('\n')])) := by
    rw [hdata]
    have hb := splitFirst_boundary MARKER.data
      (('\n') :: ((generate_readme_fallback brief checks meta round_num).data ++ [('\n')]))
      ((fallback_code_part brief).data) hocc
    simpa [List.append_assoc] using hb
  have hmT : pyIn MARKER (fallback_response_text brief checks meta round_num) = true := by
    unfold pyIn
    rw [hsf]
    rfl
  have hd2 : (("\n") ++ generate_readme_fallback brief checks meta round_num ++ ("\n")).data
      = ('\n') :: ((generate_readme_fallback brief checks meta round_num).data ++ [('\n')]) := by
    simp only [String.data_append, List.append_assoc, List.cons_append, List.nil_append]
  have hps : pySplit1 MARKER (fallback_response_text brief checks meta round_num)
      = (fallback_code_part brief,
         ("\n") ++ generate_readme_fallback brief checks meta round_num ++ ("\n")) := by
    unfold pySplit1
    rw [hsf]
    refine congrArg₂ Prod.mk rfl ?_
    exact (congrArg String.mk hd2).symm
  have hfence2 : pyIn FENCE
      (("\n") ++ generate_readme_fallback brief checks meta round_num ++ ("\n")) = false := by
    rw [pyIn_eq_false_iff]
    intro hinf
    have hinf2 : FENCE.data <:+: ('\n') ::
        ((generate_readme_fallback brief checks meta round_num).data ++ [('\n')]) := by
      rwa [hd2] at hinf
    have hstart : ('\n') ∉ FENCE.data := by decide
    rcases infix_split_at_char ('\n')
        ((generate_readme_fallback brief checks meta round_num).data ++ [('\n')])
        FENCE.data hstart [] (by simpa using hinf2) with h' | h'
    · exact absurd h' (by decide)
    · rcases infix_split_at_char ('\n') [] FENCE.data hstart
          ((generate_readme_fallback brief checks meta round_num).data) (by simpa using h')
        with h'' | h''
      · exact absurd h'' ((pyIn_eq_false_iff _ _).mp hf2)
      · exact absurd h'' (by decide)
  have hscb2 : strip_code_block
      (("\n") ++ generate_readme_fallback brief checks meta round_num ++ ("\n"))
      = pyStrip (generate_readme_fallback brief checks meta round_num) := by
    rw [strip_code_block_no_fence _ hfence2]
    exact congrArg String.mk (by
      rw [show (("\n") ++ generate_readme_fallback brief checks meta round_num ++ ("\n")).data
          = [('\n')] ++ (generate_readme_fallback brief checks meta round_num).data ++ [('\n')] from by
        simp only [String.data_append, List.append_assoc, List.cons_append, List.nil_append]]
      exact pyStripList_pad [('\n')] _ [('\n')] (by decide) (by decide))
  have hlen : ¬ (pyStrip (generate_readme_fallback brief checks meta round_num)).length < 20 := by
    rw [Nat.not_lt]
    show 20 ≤ (pyStripList (generate_readme_fallback brief checks meta round_num).data).length
    have hshape : (generate_readme_fallback brief checks meta round_num).data
        = ("# Auto-generated README (Round ").data
          ++ ((toString round_num).data ++ ((")\n\n**Project brief:** ").data
          ++ (brief.data ++ (("\n\n**Attachments:**\n").data
          ++ (meta.data ++ (("\n\n**Checks to meet:**\n").data
          ++ ((String.intercalate ("\n") checks).data
          ++ ("\n\n## Setup\n1. Open `index.html` in a browser.\n2. No build steps required.\n\n## Notes\nThis README was generated as a fallback (AIpipe did not return an explicit README).\n").data))))))) := by
      simp only [generate_readme_fallback, String.data_append, List.append_assoc,
        List.cons_append, List.nil_append]
    rw [hshape]
    have hy : ¬ ((((toString round_num).data ++ ((")\n\n**Project brief:** ").data
        ++ (brief.data ++ (("\n\n**Attachments:**\n").data
        ++ (meta.data ++ (("\n\n**Checks to meet:**\n").data
        ++ ((String.intercalate ("\n") checks).data
        ++ ("\n\n## Setup\n1. Open `index.html` in a browser.\n2. No build steps required.\n\n## Notes\nThis README was generated as a fallback (AIpipe did not return an explicit README).\n").data))))))).reverse).dropWhile py_isspace).isEmpty = true := by
      simp only [List.reverse_append, List.append_assoc]
      exact dropWhile_append_not_empty _ _ _ (by decide)
    rw [pyStrip_length_ge _ _ (by decide) (by decide) hy]
    have h31 : ("# Auto-generated README (Round ").data.length = 31 := by decide
    omega
  have hfinal : final_parse brief checks meta round_num
      (fallback_response_text brief checks meta round_num)
      = (pyStrip (fallback_code_part brief),
         pyStrip (generate_readme_fallback brief checks meta round_num)) := by
    unfold final_parse
    rw [if_pos hmT]
    simp only [hps]
    rw [hscb2, strip_code_block_no_fence _ hf1, pyStrip_pyStrip]
    rw [if_neg hlen]
  have hloop := retry_go_none svc
    (assembled_prompt brief attachments checks round_num prev_readme)
    (List.range' 1 max_attempts) hsvc
  refine ⟨?_, ?_, ?_⟩
  · rw [generate_app_code_eq, hloop]
    show Except.ok (finish_generation brief checks
      (summarize_attachment_meta (decode_attachments attachments).2
        (decode_attachments attachments).1) round_num
      (decode_attachments attachments).1 none) = _
    rw [← hmeta]
    unfold finish_generation
    simp only [hfinal]
  · apply pyIn_of_infix
    have hd3 : (fallback_code_part brief).data
        = ("\n<html>\n  <head><title>Fallback App</title></head>\n  <body>\n    <h1>Hello (fallback)</h1>\n    <p>This app was generated as a fallback because AIpipe failed. Brief: ").data
          ++ brief.data ++ ("</p>\n  </body>\n</html>\n\n").data := by
      simp only [fallback_code_part, String.data_append]
    rw [show (pyStrip (fallback_code_part brief)).data
        = pyStripList (fallback_code_part brief).data from rfl, hd3]
    exact infix_pyStrip_sandwich _ _ _ (by decide) (by decide)
  · apply pyIn_of_infix
    have hd4 : (generate_readme_fallback brief checks meta round_num).data
        = (("# Auto-generated README (Round ").data ++ (toString round_num).data
            ++ (")\n\n**Project brief:** ").data ++ brief.data ++ ("\n\n**Attachments:**\n").data
            ++ meta.data ++ ("\n\n**Checks to meet:**\n").data
            ++ (String.intercalate ("\n") checks).data
            ++ ("\n\n## Setup\n1. Open `index.html` in a browser.\n2. No build steps required.\n\n## Notes\n").data)
            ++ ("This README was generated as a fallback").data
            ++ (" (AIpipe did not return an explicit README).\n").data := by
      simp only [generate_readme_fallback, String.data_append, List.append_assoc,
        List.cons_append, List.nil_append]
    rw [show (pyStrip (generate_readme_fallback brief checks meta round_num)).data
        = pyStripList (generate_readme_fallback brief checks meta round_num).data from rfl, hd4]
    apply infix_pyStrip_sandwich
    · refine dropWhile_append_not_empty _ _ _ (dropWhile_append_not_empty _ _ _
        (dropWhile_append_not_empty _ _ _ (dropWhile_append_not_empty _ _ _
          (dropWhile_append_not_empty _ _ _ (dropWhile_append_not_empty _ _ _
            (dropWhile_append_not_empty _ _ _ (dropWhile_append_not_empty _ _ _ ?_)))))))
      decide
    · decide

/-- Witness for the amended C3 at a concrete exhausting service. -/
theorem claim_C3_witness :
    generate_app_code plain_remote ("b") [] [] 1 none
      = Except.ok { files := { index_html := pyStrip (fallback_code_part ("b")),
                               readme_md := pyStrip (generate_readme_fallback ("b") [] ("") 1) },
                    attachments := [] }
      ∧ pyIn ("b") (pyStrip (fallback_code_part ("b"))) = true
      ∧ pyIn ("This README was generated as a fallback")
          (pyStrip (generate_readme_fallback ("b") [] ("") 1)) = true :=
  claim_C3 plain_remote ("b") [] [] 1 none ("") rfl
    (fun _ _ => ⟨("hello"), rfl, by decide⟩) (by decide) (by decide) (by decide)
